import Mathlib

/-!
Shallow embedding of `skin_editor.py`, a converter between PNG skin images
and textual grids of `#RRGGBBAA` color codes.

Modelling conventions:
* Python strings are `List Char` (ASCII content; the repository's data is
  ASCII throughout).
* Machine pixels are 4 integer channels; we use `ℤ` because Python's
  `int(s, 16)` can return negative values for inputs such as `"-1"`.
* Fallible functions return `Except`; an `.error` value corresponds to the
  Python function raising (and then printing) an error, in which case no
  output file is written.
* File access is `Option` of the file's content: `none` models a path for
  which `os.path.exists` is false.
-/

/-- ASCII whitespace as recognised by `str.strip`/`str.split`/`int` in
Python (space, tab, newline, carriage return, vertical tab, form feed). -/
def pyWs (c : Char) : Bool :=
  c = ' ' || c = '\t' || c = '\n' || c = '\r' || c = '\x0B' || c = '\x0C'

/-- Value of a single hexadecimal digit, either case, as accepted by
Python's `int(_, 16)`. -/
def hexDigitVal? (c : Char) : Option ℕ :=
  if '0' ≤ c ∧ c ≤ '9' then some (c.toNat - '0'.toNat)
  else if 'a' ≤ c ∧ c ≤ 'f' then some (c.toNat - 'a'.toNat + 10)
  else if 'A' ≤ c ∧ c ≤ 'F' then some (c.toNat - 'A'.toNat + 10)
  else none

/-- Whether a character is a hexadecimal digit (either case). -/
def isHexDigitB (c : Char) : Bool :=
  ('0' ≤ c && c ≤ '9') || ('a' ≤ c && c ≤ 'f') || ('A' ≤ c && c ≤ 'F')

/-- CPython's `int(s, 16)` restricted to the 2-character ASCII slices on
which `hex_to_rgba` calls it (`hex_code[1:3]` … `hex_code[7:9]`).  Python
strips surrounding whitespace, then allows an optional single sign before
the digits, so a 2-character string is accepted exactly when it is two hex
digits, or a sign/whitespace character followed by one hex digit, or one
hex digit followed by whitespace.  (A `0x` prefix or an underscore needs a
digit after it and so cannot fit in 2 characters; non-ASCII digit
characters are outside the scope of this embedding.)  `none` models the
`ValueError` raised by `int`. -/
def pyIntHex2 : List Char → Option ℤ
  | [c1, c2] =>
    match hexDigitVal? c1, hexDigitVal? c2 with
    | some v1, some v2 => some (16 * (v1 : ℤ) + v2)
    | some v1, none => if pyWs c2 then some (v1 : ℤ) else none
    | none, some v2 =>
      if pyWs c1 then some (v2 : ℤ)
      else if c1 = '+' then some (v2 : ℤ)
      else if c1 = '-' then some (-(v2 : ℤ))
      else none
    | none, none => none
  | _ => none

/-- Uppercase hexadecimal digit character for a value below 16. -/
def hexUpperChar (d : ℕ) : Char :=
  match d with
  | 0 => '0' | 1 => '1' | 2 => '2' | 3 => '3'
  | 4 => '4' | 5 => '5' | 6 => '6' | 7 => '7'
  | 8 => '8' | 9 => '9' | 10 => 'A' | 11 => 'B'
  | 12 => 'C' | 13 => 'D' | 14 => 'E' | 15 => 'F'
  | _ => '0'

/-- Uppercase hexadecimal digits of a natural number, most significant
first, accumulated into `acc`.  The first argument is structural fuel so
that the definition reduces in the kernel; `n` itself is always enough
fuel, since dividing by 16 reaches 0 within `n` steps. -/
def natToHexAux : ℕ → ℕ → List Char → List Char
  | 0, _, acc => acc
  | _, 0, acc => acc
  | fuel + 1, n + 1, acc =>
    natToHexAux fuel ((n + 1) / 16) (hexUpperChar ((n + 1) % 16) :: acc)

/-- Uppercase hexadecimal digits of a natural number (no leading zeros,
`"0"` for zero), as Python's `format(n, 'X')`. -/
def natToHexUpper (n : ℕ) : List Char :=
  if n = 0 then ['0'] else natToHexAux n n []

deriving instance DecidableEq for Except

/-- Python's format specifier `{:02X}`: uppercase hexadecimal, zero-padded
to a minimum width of 2.  For negative numbers Python puts the sign first
and pads between the sign and the digits (`f"{-1:02X}" == "-1"`). -/
def format02X (n : ℤ) : List Char :=
  if n < 0 then
    '-' :: List.replicate (2 - (natToHexUpper n.natAbs).length - 1) '0'
      ++ natToHexUpper n.natAbs
  else
    List.replicate (2 - (natToHexUpper n.toNat).length) '0' ++ natToHexUpper n.toNat

/-- `rgba_to_hex` (skin_editor.py lines 10-13): formats the 4 channels with
`f"#{r:02X}{g:02X}{b:02X}{a:02X}"`. -/
def rgba_to_hex (p : ℤ × ℤ × ℤ × ℤ) : List Char :=
  '#' :: (format02X p.1 ++ (format02X p.2.1 ++ (format02X p.2.2.1 ++ format02X p.2.2.2)))

/-- The two `ValueError` messages `hex_to_rgba` can raise: a bad overall
format (`"Invalid hex code format"`), or a slice rejected by `int(_, 16)`
(`"Invalid characters in hex code"`). -/
inductive HexError where
  | formatErr
  | charErr
deriving DecidableEq

/-- `hex_to_rgba` (skin_editor.py lines 16-27): requires the string to
start with `#` and have length 9, then parses the four 2-character slices
`[1:3]`, `[3:5]`, `[5:7]`, `[7:9]` with `int(_, 16)`; any slice failure is
caught and re-raised as a single error. -/
def hex_to_rgba (s : List Char) : Except HexError (ℤ × ℤ × ℤ × ℤ) :=
  if s.head? = some '#' ∧ s.length = 9 then
    match pyIntHex2 ((s.drop 1).take 2), pyIntHex2 ((s.drop 3).take 2),
          pyIntHex2 ((s.drop 5).take 2), pyIntHex2 ((s.drop 7).take 2) with
    | some r, some g, some b, some a => .ok (r, g, b, a)
    | _, _, _, _ => .error .charErr
  else .error .formatErr

/-- `valid_sizes` (skin_editor.py line 7): the accepted `(width, height)`
pairs, 64x32 (Java legacy), 64x64 (Java), 128x128 (Bedrock). -/
def valid_sizes : List (ℕ × ℕ) := [(64, 32), (64, 64), (128, 128)]

/-- Python `str.strip` (ASCII whitespace): drop whitespace from both ends. -/
def pyStrip (s : List Char) : List Char :=
  ((s.dropWhile pyWs).reverse.dropWhile pyWs).reverse

/-- Worker for `pySplit`: splits on runs of whitespace, accumulating the
current word reversed in `acc`. -/
def pySplitAux : List Char → List Char → List (List Char)
  | [], acc => if acc = [] then [] else [acc.reverse]
  | c :: rest, acc =>
    if pyWs c then
      if acc = [] then pySplitAux rest [] else acc.reverse :: pySplitAux rest []
    else pySplitAux rest (c :: acc)

/-- Python `str.split()` with no separator: split on runs of whitespace,
discarding empty strings. -/
def pySplit (s : List Char) : List (List Char) := pySplitAux s []

/-- Worker for `pyReadlines`: cuts the text after every `'\n'`, keeping the
newline at the end of each line, as Python's `readlines` does. -/
def splitNl : List Char → List Char → List (List Char)
  | [], acc => if acc = [] then [] else [acc.reverse]
  | c :: rest, acc =>
    if c = '\n' then (acc.reverse ++ ['\n']) :: splitNl rest []
    else splitNl rest (c :: acc)

/-- Python `f.readlines()` on the file's text `s` (text mode with `'\n'`
newlines): the list of lines, each keeping its trailing `'\n'` except
possibly the last; the empty file gives no lines. -/
def pyReadlines (s : List Char) : List (List Char) := splitNl s []

/-- Python `" ".join`: concatenate with a single space between elements. -/
def pyJoinSpace : List (List Char) → List Char
  | [] => []
  | [t] => t
  | t :: t2 :: rest => t ++ ' ' :: pyJoinSpace (t2 :: rest)

/-- One output line of the exporter: the row's hex codes joined with
spaces, plus the trailing `'\n'` written by `f.write(... + "\n")`. -/
def rowLine (row : List (List Char)) : List Char := pyJoinSpace row ++ ['\n']

/-- The full text produced for a grid of tokens, one line per row. -/
def gridContent (rows : List (List (List Char))) : List Char :=
  List.flatten (rows.map rowLine)

/-- The ways `hex_grid_to_png` can fail (each is printed and the function
returns without writing the output PNG):
* `notFound`: `os.path.exists` is false for the input path;
* `emptyInput`: `readlines` returned no lines (`"Input text file is empty"`);
* `inconsistentRow row expected got`: the `ValueError` of line 100,
  `"Inconsistent row length found at row {row}"` with the 1-based original
  line number, the established width and the offending token count;
* `wrongDimension w h`: the `ValueError` of line 110, `"HEX data has wrong
  dimension... Yours is {w}x{h}"`. -/
inductive ImportError where
  | notFound
  | emptyInput
  | inconsistentRow (row : ℕ) (expected : ℤ) (got : ℕ)
  | wrongDimension (w : ℤ) (h : ℕ)
deriving DecidableEq

/-- The parse loop of `hex_grid_to_png` (lines 90-104): `y` is the 0-based
index into the original `lines` (Python's `enumerate`), `ew` is
`expected_width` with the `-1` sentinel, `acc` holds the rows of
`grid_data` in reverse.  Blank lines (after `strip`) are skipped; the
first non-blank line's token count becomes `expected_width`; any later
non-blank line with a different count raises the inconsistent-row error,
naming `y + 1`. -/
def parseGridAux :
    ℕ → ℤ → List (List (List Char)) → List (List Char) →
      Except ImportError (ℤ × List (List (List Char)))
  | _, ew, acc, [] => .ok (ew, acc.reverse)
  | y, ew, acc, line :: rest =>
    if pyStrip line = [] then parseGridAux (y + 1) ew acc rest
    else
      if ew = -1 then
        parseGridAux (y + 1) ((pySplit (pyStrip line)).length : ℤ)
          (pySplit (pyStrip line) :: acc) rest
      else if ((pySplit (pyStrip line)).length : ℤ) ≠ ew then
        .error (.inconsistentRow (y + 1) ew (pySplit (pyStrip line)).length)
      else parseGridAux (y + 1) ew (pySplit (pyStrip line) :: acc) rest

/-- The parse loop started as the source starts it: `y = 0`,
`expected_width = -1`, `grid_data = []`.  Returns `(expected_width,
grid_data)` on success. -/
def parseGrid (lines : List (List Char)) :
    Except ImportError (ℤ × List (List (List Char))) :=
  parseGridAux 0 (-1) [] lines

/-- Python `==` between the list `[w, h]` and a 2-tuple `(a, b)`: in
CPython a `list` and a `tuple` are never equal, whatever their elements,
so this is constantly `false`.  Source line 109 writes
`[width, height] not in valid_sizes`, comparing the *list* `[width,
height]` against the *tuples* stored in `valid_sizes`. -/
def pyList2EqTuple2 (_w _h : ℤ) (_a _b : ℕ) : Bool := false

/-- The dimension test of `hex_grid_to_png` line 109:
`[width, height] in valid_sizes`, with the list-vs-tuple comparison of
`pyList2EqTuple2`.  It is always `false`, so the import always raises the
wrong-dimension error. -/
def importDimOk (w : ℤ) (h : ℕ) : Bool :=
  valid_sizes.any fun p => pyList2EqTuple2 w h p.1 p.2

/-- Warnings printed by the pixel-population loop of `hex_grid_to_png`
(lines 121-138): `badHex row col` for a token rejected by `hex_to_rgba`
(1-based row and column, as in the printed message), `outOfBounds x y` for
the defensive `IndexError` branch. -/
inductive PixWarning where
  | badHex (row col : ℕ)
  | outOfBounds (x y : ℕ)
deriving DecidableEq

/-- One pixel of the populated image (lines 123-138): look the token up in
`grid_data`; a missing position is the `IndexError` branch, a token
rejected by `hex_to_rgba` is the `ValueError` branch; both fill the pixel
with transparent black `(0,0,0,0)` and print a warning. -/
def decodePix (grid : List (List (List Char))) (x y : ℕ) :
    (ℤ × ℤ × ℤ × ℤ) × Option PixWarning :=
  match (grid.get? y).bind fun row => row.get? x with
  | none => ((0, 0, 0, 0), some (.outOfBounds x y))
  | some tok =>
    match hex_to_rgba tok with
    | .ok p => (p, none)
    | .error _ => ((0, 0, 0, 0), some (.badHex (y + 1) (x + 1)))

/-- Result of a successful import: the pixel raster of the saved PNG and
the warnings printed along the way. -/
structure ImportOut where
  pixels : List (List (ℤ × ℤ × ℤ × ℤ))
  warnings : List PixWarning
deriving DecidableEq

/-- The pixel-population loop (lines 117-138): a `width × height` RGBA
image filled row by row from `grid_data`. -/
def buildImage (w : ℤ) (h : ℕ) (grid : List (List (List Char))) : ImportOut :=
  { pixels :=
      (List.range h).map fun y =>
        (List.range w.toNat).map fun x => (decodePix grid x y).1
    warnings :=
      ((List.range h).map fun y =>
        (List.range w.toNat).filterMap fun x => (decodePix grid x y).2).flatten }

/-- `hex_grid_to_png` (skin_editor.py lines 72-148), up to the observable
data: the input is `none` when `os.path.exists` fails, otherwise the text
content of the input file.  `.ok` carries the image that `img.save` writes
to the output path; `.error` means the message was printed and no output
file was written. -/
def hex_grid_to_png (file : Option (List Char)) : Except ImportError ImportOut :=
  match file with
  | none => .error .notFound
  | some content =>
    if pyReadlines content = [] then .error .emptyInput
    else
      match parseGrid (pyReadlines content) with
      | .error e => .error e
      | .ok (ew, grid) =>
        if importDimOk ew grid.length then .ok (buildImage ew grid.length grid)
        else .error (.wrongDimension ew grid.length)

/-- A PIL image as the exporter sees it after `Image.open`: a width, a
height, and at every coordinate 4 channels of which the alpha may be
absent (an RGB source file). -/
structure PImage where
  width : ℕ
  height : ℕ
  pix : ℕ → ℕ → ℤ × ℤ × ℤ × Option ℤ

/-- `img.convert("RGBA")` (line 42): pixels of an image that lacks an
alpha channel get a fully opaque alpha of 255. -/
def convert_RGBA (img : PImage) (x y : ℕ) : ℤ × ℤ × ℤ × ℤ :=
  match img.pix x y with
  | (r, g, b, a) => (r, g, b, a.getD 255)

/-- The ways `png_to_hex_grid` can fail (printed, and no text file is
written): the input path does not exist, or the image's dimensions are not
in `valid_sizes` (the `ValueError` of line 46, carrying the actual width
and height). -/
inductive ExportError where
  | notFound
  | wrongDimension (w h : ℕ)
deriving DecidableEq

/-- The token rows written by `png_to_hex_grid`'s loop (lines 55-62): for
each `y` in `range(height)`, the hex codes of row `y` left to right. -/
def exportRows (img : PImage) : List (List (List Char)) :=
  (List.range img.height).map fun y =>
    (List.range img.width).map fun x => rgba_to_hex (convert_RGBA img x y)

/-- `png_to_hex_grid` (skin_editor.py lines 30-69): `none` input models a
missing path; the size check `img.size not in valid_sizes` (line 45, a
tuple-in-list-of-tuples test, which behaves normally) happens before the
output file is opened; `.ok` carries the text written to the output file. -/
def png_to_hex_grid (file : Option PImage) : Except ExportError (List Char) :=
  match file with
  | none => .error .notFound
  | some img =>
    if (img.width, img.height) ∈ valid_sizes then .ok (gridContent (exportRows img))
    else .error (.wrongDimension img.width img.height)

/-- The sixteen uppercase hexadecimal digit characters, in value order. -/
def upperHexChars : List Char :=
  ['0', '1', '2', '3', '4', '5', '6', '7', '8', '9', 'A', 'B', 'C', 'D', 'E', 'F']

/-- The value of a hexadecimal digit character (0 for non-digits). -/
def hexValD (c : Char) : ℕ := (hexDigitVal? c).getD 0

/-- The 2-character strings accepted by `int(_, 16)` (see `pyIntHex2`),
described by shape: two hex digits, or a sign or whitespace character next
to a single hex digit. -/
def pyAcceptedPair : List Char → Bool
  | [c1, c2] =>
    (isHexDigitB c1 && isHexDigitB c2) ||
    ((c1 = '+' || c1 = '-') && isHexDigitB c2) ||
    (pyWs c1 && isHexDigitB c2) ||
    (isHexDigitB c1 && pyWs c2)
  | _ => false

/-- The non-blank lines of a list of lines, each paired with its 0-based
index in the *original* list, starting the count at `y` (the view of the
parse loop's `enumerate` after blank lines are skipped). -/
def nonBlankFrom : ℕ → List (List Char) → List (ℕ × List Char)
  | _, [] => []
  | y, l :: ls =>
    if pyStrip l = [] then nonBlankFrom (y + 1) ls
    else (y, l) :: nonBlankFrom (y + 1) ls

/-- Shift the row number of an inconsistent-row error up by one; every
other outcome is unchanged.  `parseGridAux` started one line later reports
rows one higher (see `parseGridAux_shift`). -/
def bumpRow (r : Except ImportError (ℤ × List (List (List Char)))) :
    Except ImportError (ℤ × List (List (List Char))) :=
  match r with
  | .error (.inconsistentRow row e c) => .error (.inconsistentRow (row + 1) e c)
  | x => x

/-- An all-hex-digit color token used by several concrete inputs below. -/
def tok0 : List Char := ['#', '0', '0', '0', '0', '0', '0', '0', '0']

/-- The 9-character input `"#+1+1+1+1"`: starts with `#`, length 9, but
its four 2-character slices are `"+1"`, not pairs of hex digits. -/
def c4code : List Char := ['#', '+', '1', '+', '1', '+', '1', '+', '1']

/-- A 10x10 source image (an invalid size for a skin). -/
def img10 : PImage := ⟨10, 10, fun _ _ => (1, 2, 3, some 4)⟩

/-- A 10x10 text grid (an invalid size for a skin). -/
def content10 : List Char :=
  gridContent (List.replicate 10 (List.replicate 10 tok0))

/-- A first line of 64 tokens followed by a second line of 63 tokens. -/
def c6line1 : List Char := pyJoinSpace (List.replicate 64 tok0) ++ ['\n']

/-- The 63-token second line of the inconsistent-grid example. -/
def c6line2 : List Char := pyJoinSpace (List.replicate 63 tok0) ++ ['\n']

/-- Text whose row 1 has 64 tokens and row 2 has 63 tokens. -/
def c6content : List Char := c6line1 ++ c6line2

/-- A two-token line over a one-token line: the row widths disagree. -/
def c8contentA : List Char :=
  (tok0 ++ ' ' :: tok0 ++ ['\n']) ++ tok0 ++ ['\n']

/-- `c8contentA` with a blank line inserted between the two rows. -/
def c8contentB : List Char :=
  (tok0 ++ ' ' :: tok0 ++ ['\n']) ++ '\n' :: tok0 ++ ['\n']

/-- A 64x32 source image without an alpha channel, all pixels
`(12, 34, 56)`. -/
def c1img : PImage := ⟨64, 32, fun _ _ => (12, 34, 56, none)⟩

/-- The text file written when `c1img` is exported. -/
def c1content : List Char := gridContent (exportRows c1img)

/-- A malformed token: `#` followed by eight non-hex characters. -/
def c7badTok : List Char := ['#', 'Z', 'Z', 'Z', 'Z', 'Z', 'Z', 'Z', 'Z']

/-- The well-formed token `"#01020304"`, decoding to `(1, 2, 3, 4)`. -/
def tok1234 : List Char := ['#', '0', '1', '0', '2', '0', '3', '0', '4']

/-- A 64x32 token grid whose only malformed token sits at row 1,
column 1. -/
def c7rows : List (List (List Char)) :=
  (c7badTok :: List.replicate 63 tok1234) :: List.replicate 31 (List.replicate 64 tok1234)

/-- The text of the `c7rows` grid. -/
def c7content : List Char := gridContent c7rows

/-- A well-formed uppercase token distinct from `tok0`. -/
def c10tok : List Char := ['#', '0', 'A', '0', 'B', '0', 'C', '0', 'D']

/-- A rectangular 64x32 grid of well-formed uppercase tokens. -/
def c10rows : List (List (List Char)) :=
  List.replicate 32 (List.replicate 64 c10tok)

/-- The text of the `c10rows` grid. -/
def c10content : List Char := gridContent c10rows

example : hex_to_rgba (rgba_to_hex (18, 52, 86, 255)) = .ok (18, 52, 86, 255) := by decide
example : rgba_to_hex (0, 10, 255, 1) = ['#', '0', '0', '0', 'A', 'F', 'F', '0', '1'] := by decide
example : hex_to_rgba ['#', '+', '1', '-', '1', ' ', '1', '1', ' '] = .ok (1, -1, 1, 1) := by decide
example : hex_to_rgba ['#', 'Z', 'Z', '0', '0', '0', '0', '0', '0'] = .error .charErr := by decide
example : hex_to_rgba ['#', '0', '0'] = .error .formatErr := by decide

set_option maxRecDepth 40000 in
theorem format02X_length_two : ∀ n : ℕ, n < 256 → (format02X (n : ℤ)).length = 2 := by decide

set_option maxRecDepth 40000 in
theorem pyIntHex2_format02X : ∀ n : ℕ, n < 256 → pyIntHex2 (format02X (n : ℤ)) = some (n : ℤ) := by
  decide

theorem hex_to_rgba_explicit (a1 a2 b1 b2 c1 c2 d1 d2 : Char) :
    hex_to_rgba ('#' :: ([a1, a2] ++ ([b1, b2] ++ ([c1, c2] ++ [d1, d2])))) =
      match pyIntHex2 [a1, a2], pyIntHex2 [b1, b2], pyIntHex2 [c1, c2], pyIntHex2 [d1, d2] with
      | some r, some g, some b, some a => .ok (r, g, b, a)
      | _, _, _, _ => .error .charErr := by
  show hex_to_rgba ['#', a1, a2, b1, b2, c1, c2, d1, d2] = _
  rw [hex_to_rgba, if_pos (by simp)]
  rfl

/-- **C2.** For every pixel `(r, g, b, a)` with each channel in `[0, 255]`,
`hex_to_rgba (rgba_to_hex (r, g, b, a))` succeeds and returns exactly
`(r, g, b, a)`. -/
theorem c2_pixel_roundtrip (r g b a : ℤ)
    (hr : 0 ≤ r ∧ r ≤ 255) (hg : 0 ≤ g ∧ g ≤ 255)
    (hb : 0 ≤ b ∧ b ≤ 255) (ha : 0 ≤ a ∧ a ≤ 255) :
    hex_to_rgba (rgba_to_hex (r, g, b, a)) = .ok (r, g, b, a) := by
  have er : ((r.toNat : ℕ) : ℤ) = r := Int.toNat_of_nonneg hr.1
  have eg : ((g.toNat : ℕ) : ℤ) = g := Int.toNat_of_nonneg hg.1
  have eb : ((b.toNat : ℕ) : ℤ) = b := Int.toNat_of_nonneg hb.1
  have ea : ((a.toNat : ℕ) : ℤ) = a := Int.toNat_of_nonneg ha.1
  have fr := pyIntHex2_format02X r.toNat (by omega)
  have fg := pyIntHex2_format02X g.toNat (by omega)
  have fb := pyIntHex2_format02X b.toNat (by omega)
  have fa := pyIntHex2_format02X a.toNat (by omega)
  rw [er] at fr; rw [eg] at fg; rw [eb] at fb; rw [ea] at fa
  have lr := format02X_length_two r.toNat (by omega); rw [er] at lr
  have lg := format02X_length_two g.toNat (by omega); rw [eg] at lg
  have lb := format02X_length_two b.toNat (by omega); rw [eb] at lb
  have la := format02X_length_two a.toNat (by omega); rw [ea] at la
  obtain ⟨ra, rb, hre⟩ := List.length_eq_two.mp lr
  obtain ⟨ga, gb, hge⟩ := List.length_eq_two.mp lg
  obtain ⟨ba, bb, hbe⟩ := List.length_eq_two.mp lb
  obtain ⟨aa, ab, hae⟩ := List.length_eq_two.mp la
  rw [hre] at fr; rw [hge] at fg; rw [hbe] at fb; rw [hae] at fa
  show hex_to_rgba ('#' :: (format02X r ++ (format02X g ++ (format02X b ++ format02X a)))) = _
  rw [hre, hge, hbe, hae, hex_to_rgba_explicit, fr, fg, fb, fa]

theorem c2_pixel_roundtrip_witness :
    hex_to_rgba (rgba_to_hex (1, 2, 3, 255)) = .ok (1, 2, 3, 255) :=
  c2_pixel_roundtrip 1 2 3 255 (by decide) (by decide) (by decide) (by decide)

theorem upperHex_spec (c : Char) (h : c ∈ upperHexChars) :
    hexDigitVal? c = some (hexValD c) ∧ hexValD c < 16 ∧ hexUpperChar (hexValD c) = c := by
  fin_cases h <;> decide

theorem format02X_two_digits : ∀ v1 : ℕ, v1 < 16 → ∀ v2 : ℕ, v2 < 16 →
    format02X ((16 * v1 + v2 : ℕ) : ℤ) = [hexUpperChar v1, hexUpperChar v2] := by decide

theorem eq_list_nine (s : List Char) (h : s.length = 9) :
    ∃ c0 c1 c2 c3 c4 c5 c6 c7 c8, s = [c0, c1, c2, c3, c4, c5, c6, c7, c8] := by
  rcases s with _ | ⟨c0, _ | ⟨c1, _ | ⟨c2, _ | ⟨c3, _ | ⟨c4, _ | ⟨c5, _ | ⟨c6, _ | ⟨c7, _ | ⟨c8, _ | ⟨c9, t⟩⟩⟩⟩⟩⟩⟩⟩⟩⟩ <;>
    simp only [List.length_cons, List.length_nil] at h <;>
    first
      | omega
      | exact ⟨c0, c1, c2, c3, c4, c5, c6, c7, c8, rfl⟩

/-- **C3.** For every 9-character string made of `#` followed by 8
uppercase hexadecimal digits, decoding it with `hex_to_rgba` succeeds and
re-encoding the result with `rgba_to_hex` gives back the original
string. -/
theorem c3_code_roundtrip (s : List Char)
    (hlen : s.length = 9) (hhead : s.head? = some '#')
    (hhex : ∀ c ∈ s.drop 1, c ∈ upperHexChars) :
    (hex_to_rgba s).map rgba_to_hex = .ok s := by
  obtain ⟨c0, c1, c2, c3, c4, c5, c6, c7, c8, rfl⟩ := eq_list_nine s hlen
  have hc0 : c0 = '#' := by simpa using hhead
  subst hc0
  obtain ⟨e1, lt1, u1⟩ := upperHex_spec c1 (hhex c1 (by simp))
  obtain ⟨e2, lt2, u2⟩ := upperHex_spec c2 (hhex c2 (by simp))
  obtain ⟨e3, lt3, u3⟩ := upperHex_spec c3 (hhex c3 (by simp))
  obtain ⟨e4, lt4, u4⟩ := upperHex_spec c4 (hhex c4 (by simp))
  obtain ⟨e5, lt5, u5⟩ := upperHex_spec c5 (hhex c5 (by simp))
  obtain ⟨e6, lt6, u6⟩ := upperHex_spec c6 (hhex c6 (by simp))
  obtain ⟨e7, lt7, u7⟩ := upperHex_spec c7 (hhex c7 (by simp))
  obtain ⟨e8, lt8, u8⟩ := upperHex_spec c8 (hhex c8 (by simp))
  have p1 : pyIntHex2 [c1, c2] = some ((16 * hexValD c1 + hexValD c2 : ℕ) : ℤ) := by
    simp [pyIntHex2, e1, e2]
  have p2 : pyIntHex2 [c3, c4] = some ((16 * hexValD c3 + hexValD c4 : ℕ) : ℤ) := by
    simp [pyIntHex2, e3, e4]
  have p3 : pyIntHex2 [c5, c6] = some ((16 * hexValD c5 + hexValD c6 : ℕ) : ℤ) := by
    simp [pyIntHex2, e5, e6]
  have p4 : pyIntHex2 [c7, c8] = some ((16 * hexValD c7 + hexValD c8 : ℕ) : ℤ) := by
    simp [pyIntHex2, e7, e8]
  have q1 : format02X ((16 * hexValD c1 + hexValD c2 : ℕ) : ℤ) = [c1, c2] := by
    rw [format02X_two_digits (hexValD c1) lt1 (hexValD c2) lt2, u1, u2]
  have q2 : format02X ((16 * hexValD c3 + hexValD c4 : ℕ) : ℤ) = [c3, c4] := by
    rw [format02X_two_digits (hexValD c3) lt3 (hexValD c4) lt4, u3, u4]
  have q3 : format02X ((16 * hexValD c5 + hexValD c6 : ℕ) : ℤ) = [c5, c6] := by
    rw [format02X_two_digits (hexValD c5) lt5 (hexValD c6) lt6, u5, u6]
  have q4 : format02X ((16 * hexValD c7 + hexValD c8 : ℕ) : ℤ) = [c7, c8] := by
    rw [format02X_two_digits (hexValD c7) lt7 (hexValD c8) lt8, u7, u8]
  show (hex_to_rgba ('#' :: ([c1, c2] ++ ([c3, c4] ++ ([c5, c6] ++ [c7, c8]))))).map rgba_to_hex = _
  rw [hex_to_rgba_explicit, p1, p2, p3, p4]
  show Except.ok (rgba_to_hex _) = _
  show Except.ok ('#' :: (format02X _ ++ (format02X _ ++ (format02X _ ++ format02X _)))) = _
  rw [q1, q2, q3, q4]
  rfl

theorem c3_code_roundtrip_witness :
    (hex_to_rgba ['#', '1', 'A', '2', 'B', '3', 'C', '4', 'D']).map rgba_to_hex =
      .ok ['#', '1', 'A', '2', 'B', '3', 'C', '4', 'D'] :=
  c3_code_roundtrip ['#', '1', 'A', '2', 'B', '3', 'C', '4', 'D']
    (by decide) (by decide) (by decide)

theorem hexDigitVal?_isSome (c : Char) : (hexDigitVal? c).isSome = isHexDigitB c := by
  simp only [hexDigitVal?, isHexDigitB]
  split_ifs with h1 h2 h3 <;> simp_all

theorem pyIntHex2_isSome_eq (p : List Char) : (pyIntHex2 p).isSome = pyAcceptedPair p := by
  rcases p with _ | ⟨c1, _ | ⟨c2, _ | ⟨c3, rest⟩⟩⟩
  · rfl
  · rfl
  · have e1 := hexDigitVal?_isSome c1
    have e2 := hexDigitVal?_isSome c2
    simp only [pyIntHex2, pyAcceptedPair]
    cases h1 : hexDigitVal? c1 <;> cases h2 : hexDigitVal? c2 <;>
        rw [h1] at e1 <;> rw [h2] at e2 <;> simp at e1 e2
    · simp [e1, e2]
    · split_ifs with hw hp hm <;> simp_all
    · cases hw : pyWs c2 <;> simp [hw, e1, e2]
    · simp [e1, e2]
  · rfl

/-- **C4, counterexample.** On the 9-character input `"#+1+1+1+1"`, whose
four 2-character slices are `"+1"` — not valid hexadecimal digit pairs —
the claim predicts a format error, but `hex_to_rgba` succeeds and returns
`(1, 1, 1, 1)`: Python's `int("+1", 16)` accepts a leading sign. -/
theorem c4_counterexample :
    hex_to_rgba c4code = .ok (1, 1, 1, 1) ∧
    (c4code.drop 1).take 2 = ['+', '1'] ∧ isHexDigitB '+' = false ∧
    c4code.head? = some '#' ∧ c4code.length = 9 := by decide

/-- **C4, amended.** `hex_to_rgba` fails exactly when the input does not
start with `#`, or is not 9 characters long, or one of the four
2-character slices is not accepted by Python's `int(_, 16)` — which
accepts two hex digits, or a single hex digit with a leading sign or a
flanking whitespace character (`pyAcceptedPair`).  On success it returns
the four values that `int(_, 16)` parses from the slices. -/
theorem c4_amended (s : List Char) :
    ((∃ e, hex_to_rgba s = .error e) ↔
      ¬ (s.head? = some '#' ∧ s.length = 9 ∧
         pyAcceptedPair ((s.drop 1).take 2) = true ∧
         pyAcceptedPair ((s.drop 3).take 2) = true ∧
         pyAcceptedPair ((s.drop 5).take 2) = true ∧
         pyAcceptedPair ((s.drop 7).take 2) = true))
    ∧ (∀ r g b a : ℤ, hex_to_rgba s = .ok (r, g, b, a) ↔
        (s.head? = some '#' ∧ s.length = 9 ∧
         pyIntHex2 ((s.drop 1).take 2) = some r ∧
         pyIntHex2 ((s.drop 3).take 2) = some g ∧
         pyIntHex2 ((s.drop 5).take 2) = some b ∧
         pyIntHex2 ((s.drop 7).take 2) = some a)) := by
  have part2 : ∀ r g b a : ℤ, hex_to_rgba s = .ok (r, g, b, a) ↔
      (s.head? = some '#' ∧ s.length = 9 ∧
       pyIntHex2 ((s.drop 1).take 2) = some r ∧
       pyIntHex2 ((s.drop 3).take 2) = some g ∧
       pyIntHex2 ((s.drop 5).take 2) = some b ∧
       pyIntHex2 ((s.drop 7).take 2) = some a) := by
    intro r g b a
    by_cases hgd : s.head? = some '#' ∧ s.length = 9
    · unfold hex_to_rgba
      rw [if_pos hgd]
      cases h1 : pyIntHex2 ((s.drop 1).take 2) <;>
        cases h2 : pyIntHex2 ((s.drop 3).take 2) <;>
        cases h3 : pyIntHex2 ((s.drop 5).take 2) <;>
        cases h4 : pyIntHex2 ((s.drop 7).take 2) <;>
        simp [hgd.1, hgd.2]
    · unfold hex_to_rgba
      rw [if_neg hgd]
      exact ⟨fun h => absurd h (by simp), fun h => absurd ⟨h.1, h.2.1⟩ hgd⟩
  refine ⟨?_, part2⟩
  have hexc : (∃ e, hex_to_rgba s = .error e) ↔ ¬ ∃ p, hex_to_rgba s = .ok p := by
    cases hex_to_rgba s <;> simp
  rw [hexc]
  apply not_congr
  constructor
  · rintro ⟨⟨r, g, b, a⟩, hp⟩
    rw [part2] at hp
    refine ⟨hp.1, hp.2.1, ?_, ?_, ?_, ?_⟩ <;>
      rw [← pyIntHex2_isSome_eq]
    · rw [hp.2.2.1]; rfl
    · rw [hp.2.2.2.1]; rfl
    · rw [hp.2.2.2.2.1]; rfl
    · rw [hp.2.2.2.2.2]; rfl
  · rintro ⟨hh, hl, a1, a2, a3, a4⟩
    rw [← pyIntHex2_isSome_eq, Option.isSome_iff_exists] at a1 a2 a3 a4
    obtain ⟨r, h1⟩ := a1
    obtain ⟨g, h2⟩ := a2
    obtain ⟨b, h3⟩ := a3
    obtain ⟨a, h4⟩ := a4
    exact ⟨(r, g, b, a), (part2 r g b a).mpr ⟨hh, hl, h1, h2, h3, h4⟩⟩

theorem c4_amended_witness :
    hex_to_rgba ['#', 'F', 'F', '0', '0', 'A', 'a', '1', '2'] = .ok (255, 0, 170, 18) :=
  ((c4_amended ['#', 'F', 'F', '0', '0', 'A', 'a', '1', '2']).2 255 0 170 18).mpr
    (by refine ⟨rfl, rfl, ?_, ?_, ?_, ?_⟩ <;> decide)

theorem importDimOk_false (w : ℤ) (h : ℕ) : importDimOk w h = false := rfl

theorem png_to_hex_grid_some (img : PImage) :
    png_to_hex_grid (some img) =
      if (img.width, img.height) ∈ valid_sizes then .ok (gridContent (exportRows img))
      else .error (.wrongDimension img.width img.height) := rfl

theorem hex_grid_to_png_some (content : List Char) :
    hex_grid_to_png (some content) =
      if pyReadlines content = [] then .error .emptyInput
      else
        match parseGrid (pyReadlines content) with
        | .error e => .error e
        | .ok (ew, grid) =>
          if importDimOk ew grid.length then .ok (buildImage ew grid.length grid)
          else .error (.wrongDimension ew grid.length) := rfl

/-- **C5.** Only the dimensions in `valid_sizes` are accepted, in both
directions: an export whose image size is not one of the three pairs, and
an import whose computed `(width, height)` is not one of the three pairs,
each fail with the wrong-dimension `ValueError` carrying the actual width
and height.  The error is raised before the output file is opened
(export) or saved (import), so no output is written. -/
theorem c5_dimension_validation :
    (∀ img : PImage, (img.width, img.height) ∉ valid_sizes →
      png_to_hex_grid (some img) = .error (.wrongDimension img.width img.height))
    ∧ (∀ (content : List Char) (w : ℤ) (grid : List (List (List Char))),
        pyReadlines content ≠ [] →
        parseGrid (pyReadlines content) = .ok (w, grid) →
        (¬ ∃ p ∈ valid_sizes, (p.1 : ℤ) = w ∧ p.2 = grid.length) →
        hex_grid_to_png (some content) = .error (.wrongDimension w grid.length)) := by
  constructor
  · intro img hbad
    rw [png_to_hex_grid_some, if_neg hbad]
  · intro content w grid hne hparse _hbad
    rw [hex_grid_to_png_some, if_neg hne, hparse]
    simp [importDimOk_false]

set_option maxRecDepth 40000 in
theorem c5_dimension_validation_witness :
    png_to_hex_grid (some img10) = .error (.wrongDimension 10 10) ∧
    hex_grid_to_png (some content10) = .error (.wrongDimension 10 10) :=
  ⟨c5_dimension_validation.1 img10 (by decide),
   c5_dimension_validation.2 content10 10 (List.replicate 10 (List.replicate 10 tok0))
     (by decide) (by decide) (by decide)⟩

theorem parseGridAux_mismatch (lines : List (List Char)) :
    ∀ (y : ℕ) (acc : List (List (List Char)))
      (good : List (ℕ × List Char)) (j : ℕ) (l : List Char)
      (rest : List (ℕ × List Char)) (w c : ℕ),
      nonBlankFrom y lines = good ++ (j, l) :: rest →
      (∀ p ∈ good, (pySplit (pyStrip p.2)).length = w) →
      (pySplit (pyStrip l)).length = c → c ≠ w →
      parseGridAux y (w : ℤ) acc lines = .error (.inconsistentRow (j + 1) (w : ℤ) c) := by
  induction lines with
  | nil =>
    intro y acc good j l rest w c hnb _ _ _
    cases good <;> simp [nonBlankFrom] at hnb
  | cons line rest' ih =>
    intro y acc good j l rest w c hnb hgood hc hne
    by_cases hb : pyStrip line = []
    · simp only [nonBlankFrom, if_pos hb] at hnb
      simp only [parseGridAux, if_pos hb]
      exact ih (y + 1) acc good j l rest w c hnb hgood hc hne
    · simp only [nonBlankFrom, if_neg hb] at hnb
      cases good with
      | nil =>
        simp only [List.nil_append, List.cons.injEq, Prod.mk.injEq] at hnb
        obtain ⟨⟨hy, hl⟩, _⟩ := hnb
        subst hy; subst hl
        simp only [parseGridAux, if_neg hb, hc]
        rw [if_neg (by omega), if_pos (by exact_mod_cast hne)]
      | cons g good' =>
        simp only [List.cons_append, List.cons.injEq] at hnb
        obtain ⟨hg, hnb'⟩ := hnb
        have hlen : (pySplit (pyStrip line)).length = w := by
          have := hgood g (by simp)
          rw [← hg] at this
          exact this
        simp only [parseGridAux, if_neg hb]
        rw [if_neg (by omega), if_neg (by simp [hlen])]
        exact ih (y + 1) _ good' j l rest w c hnb'
          (fun p hp => hgood p (by simp [hp])) hc hne

theorem parseGridAux_start (lines : List (List Char)) :
    ∀ (y : ℕ) (acc : List (List (List Char)))
      (i0 : ℕ) (l0 : List Char) (good : List (ℕ × List Char)) (j : ℕ)
      (l : List Char) (rest : List (ℕ × List Char)) (w c : ℕ),
      nonBlankFrom y lines = (i0, l0) :: (good ++ (j, l) :: rest) →
      (pySplit (pyStrip l0)).length = w →
      (∀ p ∈ good, (pySplit (pyStrip p.2)).length = w) →
      (pySplit (pyStrip l)).length = c → c ≠ w →
      parseGridAux y (-1) acc lines = .error (.inconsistentRow (j + 1) (w : ℤ) c) := by
  induction lines with
  | nil =>
    intro y acc i0 l0 good j l rest w c hnb _ _ _ _
    simp [nonBlankFrom] at hnb
  | cons line rest' ih =>
    intro y acc i0 l0 good j l rest w c hnb hw hgood hc hne
    by_cases hb : pyStrip line = []
    · simp only [nonBlankFrom, if_pos hb] at hnb
      simp only [parseGridAux, if_pos hb]
      exact ih (y + 1) acc i0 l0 good j l rest w c hnb hw hgood hc hne
    · simp only [nonBlankFrom, if_neg hb, List.cons.injEq, Prod.mk.injEq] at hnb
      obtain ⟨⟨_, hl0⟩, hnb'⟩ := hnb
      subst hl0
      simp only [parseGridAux, if_neg hb, if_pos rfl, hw]
      exact parseGridAux_mismatch rest' (y + 1) _ good j l rest w c hnb' hgood hc hne

/-- **C6.** During import, the token count of the first non-blank line
establishes the expected width, and when a later non-blank line's token
count differs (all non-blank lines in between matching the width), then
the import fails with the inconsistent-row `ValueError` naming the offending
row's 1-based number and its token count — before any output file is
written. -/
theorem c6_row_consistency (content : List Char) (i0 : ℕ) (l0 : List Char)
    (good : List (ℕ × List Char)) (j : ℕ) (l : List Char)
    (rest : List (ℕ × List Char)) (w c : ℕ)
    (hnb : nonBlankFrom 0 (pyReadlines content) = (i0, l0) :: (good ++ (j, l) :: rest))
    (hw : (pySplit (pyStrip l0)).length = w)
    (hgood : ∀ p ∈ good, (pySplit (pyStrip p.2)).length = w)
    (hc : (pySplit (pyStrip l)).length = c)
    (hne : c ≠ w) :
    hex_grid_to_png (some content) = .error (.inconsistentRow (j + 1) (w : ℤ) c) := by
  have hlines : pyReadlines content ≠ [] := by
    intro h
    rw [h] at hnb
    simp [nonBlankFrom] at hnb
  have hparse : parseGrid (pyReadlines content) =
      .error (.inconsistentRow (j + 1) (w : ℤ) c) :=
    parseGridAux_start (pyReadlines content) 0 [] i0 l0 good j l rest w c hnb hw hgood hc hne
  rw [hex_grid_to_png_some, if_neg hlines, hparse]

set_option maxRecDepth 40000 in
theorem c6_row_consistency_witness :
    hex_grid_to_png (some c6content) = .error (.inconsistentRow 2 64 63) :=
  c6_row_consistency c6content 0 c6line1 [] 1 c6line2 [] 64 63
    (by decide) (by decide) (by decide) (by decide) (by decide)

theorem parseGridAux_shift (lines : List (List Char)) :
    ∀ (y : ℕ) (ew : ℤ) (acc : List (List (List Char))),
      parseGridAux (y + 1) ew acc lines = bumpRow (parseGridAux y ew acc lines) := by
  induction lines with
  | nil => intro y ew acc; rfl
  | cons line rest ih =>
    intro y ew acc
    by_cases hb : pyStrip line = []
    · simp only [parseGridAux, if_pos hb]
      exact ih (y + 1) ew acc
    · by_cases hew : ew = -1
      · simp only [parseGridAux, if_neg hb, if_pos hew]
        exact ih (y + 1) _ _
      · by_cases hm : ((pySplit (pyStrip line)).length : ℤ) ≠ ew
        · simp only [parseGridAux, if_neg hb, if_neg hew, if_pos hm]
          rfl
        · simp only [parseGridAux, if_neg hb, if_neg hew, if_neg hm]
          exact ih (y + 1) _ _

theorem bumpRow_ok (r : Except ImportError (ℤ × List (List (List Char))))
    (p : ℤ × List (List (List Char))) : bumpRow r = .ok p ↔ r = .ok p := by
  rcases r with e | q
  · rcases e <;> simp [bumpRow]
  · simp [bumpRow]

theorem parseGridAux_insert_blank (blank : List Char) (hb : pyStrip blank = [])
    (post : List (List Char)) (pre : List (List Char)) :
    ∀ (y : ℕ) (ew : ℤ) (acc : List (List (List Char))) (p : ℤ × List (List (List Char))),
      parseGridAux y ew acc (pre ++ blank :: post) = .ok p ↔
        parseGridAux y ew acc (pre ++ post) = .ok p := by
  induction pre with
  | nil =>
    intro y ew acc p
    simp only [List.nil_append]
    show parseGridAux y ew acc (blank :: post) = _ ↔ _
    simp only [parseGridAux, if_pos hb]
    rw [parseGridAux_shift post y ew acc, bumpRow_ok]
  | cons line pre' ih =>
    intro y ew acc p
    simp only [List.cons_append]
    by_cases hbl : pyStrip line = []
    · simp only [parseGridAux, if_pos hbl]
      exact ih (y + 1) ew acc p
    · by_cases hew : ew = -1
      · simp only [parseGridAux, if_neg hbl, if_pos hew]
        exact ih (y + 1) _ _ p
      · by_cases hm : ((pySplit (pyStrip line)).length : ℤ) ≠ ew
        · simp only [parseGridAux, if_neg hbl, if_neg hew, if_pos hm]
        · simp only [parseGridAux, if_neg hbl, if_neg hew, if_neg hm]
          exact ih (y + 1) _ _ p

/-- **C8, counterexample.** The claim says inserting blank lines does not
change the row indexing used for error messages.  But on a 2-column row
followed by a 1-column row the import reports "row 2", while the same grid
with a blank line inserted between the rows reports "row 3": the source's
`enumerate` index counts the blank line. -/
theorem c8_counterexample :
    hex_grid_to_png (some c8contentA) = .error (.inconsistentRow 2 2 1) ∧
    hex_grid_to_png (some c8contentB) = .error (.inconsistentRow 3 2 1) := by decide

/-- **C8, amended.** Blank lines (after stripping) are skipped entirely:
inserting one anywhere changes neither the success result of the grid
parse (so neither the computed width, the height, nor the imported token
grid), and blank lines are exempt from the column-count check.  However,
the row number named in an inconsistent-row error is the 1-based position
in the *original* line list, so a leading blank line shifts every reported
row number up by one (`bumpRow`). -/
theorem c8_blank_lines (blank : List Char) (hb : pyStrip blank = []) :
    (∀ (pre post : List (List Char)) (p : ℤ × List (List (List Char))),
      parseGrid (pre ++ blank :: post) = .ok p ↔ parseGrid (pre ++ post) = .ok p)
    ∧ (∀ lines : List (List Char),
        parseGrid (blank :: lines) = bumpRow (parseGrid lines)) := by
  constructor
  · intro pre post p
    exact parseGridAux_insert_blank blank hb post pre 0 (-1) [] p
  · intro lines
    show parseGridAux 0 (-1) [] (blank :: lines) = _
    simp only [parseGridAux, if_pos hb]
    exact parseGridAux_shift lines 0 (-1) []

theorem c8_blank_lines_witness :
    (parseGrid ([tok0 ++ ' ' :: tok0] ++ ['\n'] :: [tok0 ++ ' ' :: tok0]) = .ok (2, [[tok0, tok0], [tok0, tok0]]) ↔
      parseGrid ([tok0 ++ ' ' :: tok0] ++ [tok0 ++ ' ' :: tok0]) = .ok (2, [[tok0, tok0], [tok0, tok0]]))
    ∧ parseGrid (['\n'] :: [tok0 ++ ' ' :: tok0]) = bumpRow (parseGrid [tok0 ++ ' ' :: tok0]) :=
  ⟨(c8_blank_lines ['\n'] (by decide)).1 [tok0 ++ ' ' :: tok0] [tok0 ++ ' ' :: tok0]
      (2, [[tok0, tok0], [tok0, tok0]]),
   (c8_blank_lines ['\n'] (by decide)).2 [tok0 ++ ' ' :: tok0]⟩

theorem splitNl_eq_nil (s : List Char) :
    ∀ acc : List Char, splitNl s acc = [] → s = [] ∧ acc = [] := by
  induction s with
  | nil =>
    intro acc h
    by_cases ha : acc = []
    · exact ⟨rfl, ha⟩
    · rw [splitNl, if_neg ha] at h
      cases h
  | cons c rest ih =>
    intro acc h
    by_cases hc : c = '\n'
    · rw [splitNl, if_pos hc] at h
      cases h
    · rw [splitNl, if_neg hc] at h
      obtain ⟨_, hacc⟩ := ih (c :: acc) h
      cases hacc

theorem parseGridAux_cases (lines : List (List Char)) :
    ∀ (y : ℕ) (ew : ℤ) (acc : List (List (List Char))),
      (∃ p, parseGridAux y ew acc lines = .ok p) ∨
        (∃ r e c, parseGridAux y ew acc lines = .error (.inconsistentRow r e c)) := by
  induction lines with
  | nil => intro y ew acc; exact .inl ⟨(ew, acc.reverse), rfl⟩
  | cons line rest ih =>
    intro y ew acc
    by_cases hb : pyStrip line = []
    · simp only [parseGridAux, if_pos hb]
      exact ih (y + 1) ew acc
    · by_cases hew : ew = -1
      · simp only [parseGridAux, if_neg hb, if_pos hew]
        exact ih (y + 1) _ _
      · by_cases hm : ((pySplit (pyStrip line)).length : ℤ) ≠ ew
        · simp only [parseGridAux, if_neg hb, if_neg hew, if_pos hm]
          exact .inr ⟨y + 1, ew, (pySplit (pyStrip line)).length, rfl⟩
        · simp only [parseGridAux, if_neg hb, if_neg hew, if_neg hm]
          exact ih (y + 1) _ _

theorem parseGridAux_all_blank (lines : List (List Char)) :
    ∀ (y : ℕ) (ew : ℤ) (acc : List (List (List Char))),
      (∀ l ∈ lines, pyStrip l = []) →
      parseGridAux y ew acc lines = .ok (ew, acc.reverse) := by
  induction lines with
  | nil => intro y ew acc _; rfl
  | cons line rest ih =>
    intro y ew acc hbl
    simp only [parseGridAux, if_pos (hbl line (by simp))]
    exact ih (y + 1) ew acc fun l hl => hbl l (by simp [hl])

/-- **C9, counterexample.** A file containing only a newline has no usable
lines, but the import does not fail with the empty-input error: all lines
are blank, so `expected_width` keeps its `-1` sentinel, `grid_data` is
empty, and the dimension check raises the wrong-dimension `ValueError`
reporting size `-1x0`. -/
theorem c9_counterexample :
    hex_grid_to_png (some ['\n']) = .error (.wrongDimension (-1) 0) ∧
    hex_grid_to_png (some ['\n']) ≠ .error .emptyInput := by decide

/-- **C9, amended.** The import fails with the not-found error when the
source path does not exist, and with the empty-input error exactly when
the file is literally empty (`readlines` returns no lines).  A nonempty
file all of whose lines are blank fails with the wrong-dimension
`ValueError` reporting `-1x0` instead.  In every failure no output file is
written. -/
theorem c9_missing_and_empty :
    hex_grid_to_png none = .error .notFound
    ∧ (∀ content : List Char,
        hex_grid_to_png (some content) = .error .emptyInput ↔ content = [])
    ∧ (∀ content : List Char, content ≠ [] →
        (∀ l ∈ pyReadlines content, pyStrip l = []) →
        hex_grid_to_png (some content) = .error (.wrongDimension (-1) 0)) := by
  refine ⟨rfl, ?_, ?_⟩
  · intro content
    constructor
    · intro h
      by_cases hl : pyReadlines content = []
      · exact (splitNl_eq_nil content [] hl).1
      · rw [hex_grid_to_png_some, if_neg hl] at h
        rcases parseGridAux_cases (pyReadlines content) 0 (-1) [] with ⟨⟨ew, grid⟩, hp⟩ | ⟨r, e, c, hp⟩
        · rw [show parseGrid (pyReadlines content) = .ok (ew, grid) from hp] at h
          simp [importDimOk_false] at h
        · rw [show parseGrid (pyReadlines content) = .error (.inconsistentRow r e c) from hp] at h
          simp at h
    · rintro rfl
      rfl
  · intro content hne hbl
    have hl : pyReadlines content ≠ [] := fun h => hne (splitNl_eq_nil content [] h).1
    have hparse : parseGrid (pyReadlines content) = .ok (-1, []) :=
      parseGridAux_all_blank (pyReadlines content) 0 (-1) [] hbl
    rw [hex_grid_to_png_some, if_neg hl, hparse]
    rfl

theorem c9_missing_and_empty_witness :
    hex_grid_to_png (some [' ', '\n', '\t']) = .error (.wrongDimension (-1) 0) ∧
    (hex_grid_to_png (some ([] : List Char)) = .error .emptyInput ↔ ([] : List Char) = []) :=
  ⟨c9_missing_and_empty.2.2 [' ', '\n', '\t'] (by decide) (by decide),
   c9_missing_and_empty.2.1 []⟩

set_option maxRecDepth 1000000 in
/-- **C1.** Export-then-import does *not* reproduce the original image:
exporting the 64x32 image `c1img` (alpha channel absent, so every written
token ends in `FF`) succeeds, but importing the written text fails with
the wrong-dimension `ValueError` reporting `64x32` — a size the message
itself lists as valid.  Line 109 of the source compares the *list*
`[width, height]` with the *tuples* of `valid_sizes`; in Python a list
never equals a tuple, so every import is rejected and the pixel grid is
never rebuilt. -/
theorem c1_roundtrip_codebug :
    png_to_hex_grid (some c1img) = .ok c1content ∧
    hex_grid_to_png (some c1content) = .error (.wrongDimension 64 32) := by
  constructor
  · rw [png_to_hex_grid_some, if_pos (by decide)]
    rfl
  · decide

set_option maxRecDepth 1000000 in
/-- **C7.** The per-token recovery the claim describes is unreachable: a
64x32 rectangular grid whose only malformed token is `"#ZZZZZZZZ"` at row
1, column 1 does not import with a substituted pixel — the import fails
beforehand with the wrong-dimension `ValueError` for `64x32` (the
list-vs-tuple comparison of line 109).  The unreachable population loop
itself would behave as claimed: `buildImage` substitutes transparent black
at the malformed position, warns for it alone, and decodes a well-formed
token normally. -/
theorem c7_recovery_codebug :
    hex_grid_to_png (some c7content) = .error (.wrongDimension 64 32) ∧
    (buildImage 64 32 c7rows).warnings = [.badHex 1 1] ∧
    decodePix c7rows 0 0 = ((0, 0, 0, 0), some (.badHex 1 1)) ∧
    decodePix c7rows 1 0 = ((1, 2, 3, 4), none) := by decide

set_option maxRecDepth 1000000 in
/-- **C10.** Import-then-export cannot reproduce a text grid, because
the import always fails: on the rectangular 64x32 grid of well-formed
uppercase tokens `c10rows`, `hex_grid_to_png` raises the wrong-dimension
`ValueError` reporting `64x32` (line 109 compares the list
`[width, height]` with the tuples of `valid_sizes`, which are never equal
in Python), so no image is ever produced for `png_to_hex_grid` to
re-export. -/
theorem c10_text_roundtrip_codebug :
    hex_grid_to_png (some c10content) = .error (.wrongDimension 64 32) := by decide
